import Mathlib

/-!
Shallow embedding of the `bbox-align` sources (`geometry.py`, `bounding_box.py`,
`main.py`) and verification of the spec's claims about them.

Conventions of the embedding:
* Python numbers are embedded as exact rationals `ℚ`; the float value `inf`
  produced by the `except ZeroDivisionError` branches is embedded as an
  explicit sentinel (`none` for slopes and intersection points, `⊤` in
  `WithTop` matrices).
* Perpendicular distances involve a square root, so they live in `ℝ`
  (`Real.sqrt`), exactly as `abs(A*x + B*y + C) / (A**2 + B**2) ** 0.5`.
* Python dynamic-type failures that the sources actually contain
  (a keyword argument the constructor does not accept, an attribute read
  on a tuple, calls into a module that is not part of the repository) are
  embedded as `Except PyErr` error results, because they are observable
  behaviour of the functions under verification.
-/

open scoped Classical

/-- A 2-D point with numeric coordinates, from `geometry.Point`. -/
structure Point where
  x : ℚ
  y : ℚ
  deriving DecidableEq

instance : Add Point := ⟨fun a b => ⟨a.x + b.x, a.y + b.y⟩⟩

instance : Sub Point := ⟨fun a b => ⟨a.x - b.x, a.y - b.y⟩⟩

/-- Scalar (true) division `Point.__truediv__`. -/
def Point.divQ (p : Point) (s : ℚ) : Point := ⟨p.x / s, p.y / s⟩

@[simp] theorem Point.add_x (a b : Point) : (a + b).x = a.x + b.x := rfl

@[simp] theorem Point.add_y (a b : Point) : (a + b).y = a.y + b.y := rfl

@[simp] theorem Point.sub_x (a b : Point) : (a - b).x = a.x - b.x := rfl

@[simp] theorem Point.sub_y (a b : Point) : (a - b).y = a.y - b.y := rfl

/-- Embeds `Point.slope_wrt`: `(dx, dy) = (self - other).co_ordinates;`
`return dy / dx` with the `ZeroDivisionError` handler returning `inf`.
The infinite sentinel is embedded as `none`. -/
def Point.slope_wrt (p other : Point) : Option ℚ :=
  let d := p - other
  if d.x = 0 then none else some (d.y / d.x)

/-- A line in point-slope form, `geometry.Line`: slope `m` and intercept `c`.
(The Python constructor stores exactly these two fields.) -/
structure Line where
  m : ℚ
  c : ℚ
  deriving DecidableEq

/-- Embeds `Line.__init__(p, m)`: `self._c = y - (x * self._m)`. -/
def Line.fromPointSlope (p : Point) (m : ℚ) : Line :=
  ⟨m, p.y - p.x * m⟩

/-- Embeds `Line.standard_form_coeffs`: `(self._m, -1, self._c)`,
the coefficients of `0 = A*x + B*y + C`. -/
def Line.standard_form_coeffs (l : Line) : ℚ × ℚ × ℚ :=
  (l.m, -1, l.c)

/-- Embeds `Point.distance_to_line`:
`abs(A*x + B*y + C) / (A**2 + B**2) ** 0.5`. -/
noncomputable def Point.distance_to_line (p : Point) (l : Line) : ℝ :=
  |(l.standard_form_coeffs.1 : ℝ) * (p.x : ℝ) + (l.standard_form_coeffs.2.1 : ℝ) * (p.y : ℝ) +
      (l.standard_form_coeffs.2.2 : ℝ)| /
    Real.sqrt ((l.standard_form_coeffs.1 : ℝ) ^ 2 + (l.standard_form_coeffs.2.1 : ℝ) ^ 2)

/-- Embeds `Line.point_of_intersection`: solves the two standard forms;
the `ZeroDivisionError` handler (hit exactly when `denom == 0`) returns the
sentinel `(inf, inf)`, embedded as `none`. -/
def Line.point_of_intersection (l1 l2 : Line) : Option (ℚ × ℚ) :=
  let A1 := l1.standard_form_coeffs.1
  let B1 := l1.standard_form_coeffs.2.1
  let C1 := l1.standard_form_coeffs.2.2
  let A2 := l2.standard_form_coeffs.1
  let B2 := l2.standard_form_coeffs.2.1
  let C2 := l2.standard_form_coeffs.2.2
  let denom := A1 * B2 - A2 * B1
  if denom = 0 then none
  else some ((B1 * C2 - B2 * C1) / denom, (C1 * A2 - C2 * A1) / denom)

/-- C6: slope and intersection computations are total and never fail on a
zero divisor: two points with equal x-coordinates give the infinite sentinel
(`none` embeds the float `inf` returned by the `ZeroDivisionError` handler of
`Point.slope_wrt`), and two lines with equal slopes give the sentinel
intersection point (`none` embeds the `(inf, inf)` returned by the handler of
`Line.point_of_intersection`). -/
theorem slope_and_intersection_return_sentinels :
    (∀ p q : Point, p.x = q.x → p.slope_wrt q = none) ∧
    (∀ l1 l2 : Line, l1.m = l2.m → l1.point_of_intersection l2 = none) := by
  constructor
  · intro p q h
    unfold Point.slope_wrt
    have hx : (p - q).x = 0 := by
      show p.x - q.x = 0
      simp [h]
    simp [hx]
  · intro l1 l2 h
    unfold Line.point_of_intersection
    simp only [Line.standard_form_coeffs]
    have hd : -l1.m + l2.m = 0 := by rw [h]; ring
    simp [hd]

/-- Witness for C6 at concrete inputs: the segment from (1, 2) to (1, 5) is
vertical, and the lines `y = 3x + 0` and `y = 3x + 7` are parallel. -/
theorem slope_and_intersection_return_sentinels_witness :
    Point.slope_wrt ⟨1, 2⟩ ⟨1, 5⟩ = none ∧
      Line.point_of_intersection ⟨3, 0⟩ ⟨3, 7⟩ = none :=
  ⟨slope_and_intersection_return_sentinels.1 ⟨1, 2⟩ ⟨1, 5⟩ rfl,
   slope_and_intersection_return_sentinels.2 ⟨3, 0⟩ ⟨3, 7⟩ rfl⟩

/-- C9: for every line built in point-slope form the standard-form coefficient
`B` is the constant `-1`, so the denominator `sqrt(A^2 + B^2)` used by
`Point.distance_to_line` is at least `1` and in particular nonzero: the
perpendicular-distance computation never divides by zero. -/
theorem standard_form_B_and_denominator_safe (l : Line) :
    l.standard_form_coeffs.2.1 = -1 ∧
    1 ≤ Real.sqrt ((l.standard_form_coeffs.1 : ℝ) ^ 2 + (l.standard_form_coeffs.2.1 : ℝ) ^ 2) ∧
    Real.sqrt ((l.standard_form_coeffs.1 : ℝ) ^ 2 + (l.standard_form_coeffs.2.1 : ℝ) ^ 2) ≠ 0 := by
  refine ⟨rfl, ?_, ?_⟩
  · have h1 : (1 : ℝ) ≤ (l.standard_form_coeffs.1 : ℝ) ^ 2 + (l.standard_form_coeffs.2.1 : ℝ) ^ 2 := by
      have : l.standard_form_coeffs.2.1 = -1 := rfl
      rw [this]
      push_cast
      nlinarith [sq_nonneg ((l.standard_form_coeffs.1 : ℝ))]
    calc (1 : ℝ) = Real.sqrt 1 := (Real.sqrt_one).symm
      _ ≤ _ := Real.sqrt_le_sqrt h1
  · have h1 : (0 : ℝ) < (l.standard_form_coeffs.1 : ℝ) ^ 2 + (l.standard_form_coeffs.2.1 : ℝ) ^ 2 := by
      have : l.standard_form_coeffs.2.1 = -1 := rfl
      rw [this]
      push_cast
      nlinarith [sq_nonneg ((l.standard_form_coeffs.1 : ℝ))]
    exact ne_of_gt (Real.sqrt_pos.mpr h1)

/-- Mean of two slopes, from `BoundingBox.__init__`: `(m1 + m2) / 2` on floats.
With the infinite sentinel embedded as `none`, the Python float arithmetic
`inf + t = inf`, `inf + inf = inf`, `inf / 2 = inf` makes the mean the
sentinel whenever either slope is the sentinel. -/
def slope_mean (m1 m2 : Option ℚ) : Option ℚ :=
  match m1, m2 with
  | some a, some b => some ((a + b) / 2)
  | _, _ => none

/-- A bounding box, from `bounding_box.BoundingBox`: it owns exactly its four
corner points (the constructor accepts no other data; in particular it has no
`idx` parameter and stores no index). -/
structure BoundingBox where
  p1 : Point
  p2 : Point
  p3 : Point
  p4 : Point
  deriving DecidableEq

/-- Embeds `self._pm = (self._p1 + self._p3) / 2`. -/
def BoundingBox.midpoint (b : BoundingBox) : Point :=
  (b.p1 + b.p3).divQ 2

/-- Embeds `m1 = p1.slope_wrt(p2); m2 = p3.slope_wrt(p4); self._m = (m1 + m2) / 2`. -/
def BoundingBox.approx_orientation (b : BoundingBox) : Option ℚ :=
  slope_mean (b.p1.slope_wrt b.p2) (b.p3.slope_wrt b.p4)

/-- Embeds `self.h_avg = (abs(dh1) + abs(dh2)) / 2` with
`dh1 = (p1 - p4).y` and `dh2 = (p2 - p3).y`. -/
def BoundingBox.average_height (b : BoundingBox) : ℚ :=
  (|(b.p1 - b.p4).y| + |(b.p2 - b.p3).y|) / 2

/-- Embeds `self.w_avg = (abs(dw1) + abs(dw2)) / 2` with
`dw1 = (p1 - p2).x` and `dw2 = (p3 - p4).x`. -/
def BoundingBox.average_width (b : BoundingBox) : ℚ :=
  (|(b.p1 - b.p2).x| + |(b.p3 - b.p4).x|) / 2

/-- The slope between two points does not depend on the direction in which the
edge is traversed (also in the vertical-sentinel case). -/
theorem slope_wrt_comm (a b : Point) : a.slope_wrt b = b.slope_wrt a := by
  unfold Point.slope_wrt
  by_cases h : a.x - b.x = 0
  · have h' : b.x - a.x = 0 := by linarith
    simp [h, h']
  · have h' : ¬ b.x - a.x = 0 := fun hc => h (by linarith)
    simp only [Point.sub_x, Point.sub_y, h, h', if_false]
    rw [show b.y - a.y = -(a.y - b.y) by ring, show b.x - a.x = -(a.x - b.x) by ring,
      neg_div_neg_eq]

/-- C8 (amended part): every `BoundingBox` built from corners `p1..p4`
satisfies the claimed formulas for its derived attributes: the midpoint is the
mean of `p1` and `p3`, the approximate orientation is the mean of the slopes
of the `(p1, p2)` and `(p4, p3)` edges, the average height is the mean of the
absolute y-spans of `p1-p4` and `p2-p3`, and the average width is the mean of
the absolute x-spans of `p1-p2` and `p4-p3`. (All attributes are plain
structure fields or functions of them, so they are immutable after
construction; the box stores no integer index.) -/
theorem bounding_box_derived_attributes (p1 p2 p3 p4 : Point) :
    (BoundingBox.mk p1 p2 p3 p4).midpoint = (p1 + p3).divQ 2 ∧
    (BoundingBox.mk p1 p2 p3 p4).approx_orientation
      = slope_mean (p1.slope_wrt p2) (p4.slope_wrt p3) ∧
    (BoundingBox.mk p1 p2 p3 p4).average_height = (|(p1 - p4).y| + |(p2 - p3).y|) / 2 ∧
    (BoundingBox.mk p1 p2 p3 p4).average_width = (|(p1 - p2).x| + |(p3 - p4).x|) / 2 := by
  refine ⟨rfl, ?_, rfl, rfl⟩
  unfold BoundingBox.approx_orientation
  rw [slope_wrt_comm p4 p3]

/-- The edge-crossing test of `is_point_in_polygon` for the horizontal ray from
`pt`, for the polygon edge from `pp` to `q`:
`((py > y) != (qy > y)) and (x < (qx - px) * (y - py) / (qy - py) + px)`.
(Rational division is total in Lean; the C7 theorem shows the divisor
`qy - py` is nonzero whenever the first conjunct lets Python evaluate the
second one.) -/
def crosses (pt pp q : Point) : Bool :=
  (decide (pp.y > pt.y) != decide (q.y > pt.y)) &&
    decide (pt.x < (q.x - pp.x) * (pt.y - pp.y) / (q.y - pp.y) + pp.x)

/-- Embeds `is_point_in_polygon` (main.py): ray casting, starting from the
last vertex (`polygon[-1]`) and folding over the vertices, toggling `inside`
at each crossing. On an empty polygon the Python source raises `IndexError`
at `polygon[-1]`; that case is embedded as `none`. -/
def is_point_in_polygon (point : Point) (polygon : List Point) : Option Bool :=
  match polygon.getLast? with
  | none => none
  | some p0 =>
      some (polygon.foldl (fun st q => (q, xor st.2 (crosses point st.1 q))) (p0, false)).2

/-- Number of polygon edges crossed by the horizontal ray from `pt`, walking
the edge list `(prev, l[0]), (l[0], l[1]), ...`. -/
def crossCount (pt prev : Point) : List Point → ℕ
  | [] => 0
  | q :: rest => (if crosses pt prev q then 1 else 0) + crossCount pt q rest

theorem foldl_crosses_parity (pt : Point) :
    ∀ (l : List Point) (prev : Point) (b : Bool),
      (l.foldl (fun st q => (q, xor st.2 (crosses pt st.1 q))) (prev, b)).2
        = xor b (decide (Odd (crossCount pt prev l))) := by
  intro l
  induction l with
  | nil => intro prev b; simp [crossCount]
  | cons q rest ih =>
      intro prev b
      rw [List.foldl_cons, ih q (xor b (crosses pt prev q))]
      simp only [crossCount]
      have hodd : decide (Odd ((if crosses pt prev q then 1 else 0) + crossCount pt q rest))
          = xor (crosses pt prev q) (decide (Odd (crossCount pt q rest))) := by
        rcases hc : crosses pt prev q with _ | _
        · simp
        · rw [if_pos rfl, Nat.add_comm 1 (crossCount pt q rest)]
          simp [Nat.odd_add_one, ← Nat.not_odd_iff_even]
      rw [hodd]
      cases b <;> cases crosses pt prev q <;> cases decide (Odd (crossCount pt q rest)) <;> rfl

/-- C7: for a query point and a (nonempty) polygon, `is_point_in_polygon`
returns `True` exactly when the horizontal ray from the point crosses an odd
number of polygon edges; and the division in the crossing test is safe: its
divisor `qy - py` is nonzero whenever the first conjunct
`(py > y) != (qy > y)` of the (short-circuiting) condition holds. -/
theorem is_point_in_polygon_odd_crossings (pt p0 : Point) (poly : List Point)
    (h : poly.getLast? = some p0) :
    is_point_in_polygon pt poly = some (decide (Odd (crossCount pt p0 poly))) ∧
    ∀ pp q : Point, (decide (pp.y > pt.y) != decide (q.y > pt.y)) = true → q.y - pp.y ≠ 0 := by
  constructor
  · simp only [is_point_in_polygon, h]
    rw [foldl_crosses_parity pt poly p0 false]
    simp
  · intro pp q hne heq
    have hy : q.y = pp.y := by linarith
    rw [hy] at hne
    simp at hne

/-- Witness for C7: the point (1, 1) inside the unit-side-2 square; the
crossing count along the ray is odd and the function answers `some true`. -/
theorem is_point_in_polygon_odd_crossings_witness :
    is_point_in_polygon ⟨1, 1⟩ [⟨0, 0⟩, ⟨2, 0⟩, ⟨2, 2⟩, ⟨0, 2⟩]
        = some (decide (Odd (crossCount ⟨1, 1⟩ ⟨0, 2⟩ [⟨0, 0⟩, ⟨2, 0⟩, ⟨2, 2⟩, ⟨0, 2⟩]))) ∧
      ∀ pp q : Point,
        (decide (pp.y > (1 : ℚ)) != decide (q.y > (1 : ℚ))) = true → q.y - pp.y ≠ 0 :=
  is_point_in_polygon_odd_crossings ⟨1, 1⟩ ⟨0, 2⟩ _ (by decide)

/-- Embeds `bboxes_inline(bbox1, bbox2)` (main.py): the line through `bbox1`'s
midpoint with `bbox1`'s orientation, the perpendicular distance `d` from
`bbox2`'s midpoint to it, and the flag `d <= bbox2.average_height / 2`.
When `bbox1`'s orientation is the infinite sentinel the Python floats make the
intercept and the distance NaN; every comparison with NaN is `False` and a
NaN distance behaves like the `inf` sentinel in every later comparison, so
that branch is embedded as `(False, ⊤)`. -/
noncomputable def bboxes_inline (bbox1 bbox2 : BoundingBox) : Prop × WithTop ℝ :=
  bbox1.approx_orientation.elim (False, ⊤) fun m =>
    let l1 := Line.fromPointSlope bbox1.midpoint m
    let d := bbox2.midpoint.distance_to_line l1
    (d ≤ (bbox2.average_height : ℝ) / 2, (d : WithTop ℝ))

/-- Embeds `_parallel(bbox1, bbox2)`:
`(_, d) = bboxes_inline(bbox1, bbox2); return d <= bbox2.average_height / 2`. -/
noncomputable def par_one_way (bbox1 bbox2 : BoundingBox) : Prop :=
  (bboxes_inline bbox1 bbox2).2 ≤ (((bbox2.average_height : ℝ) / 2 : ℝ) : WithTop ℝ)

/-- Embeds `parallel(bbox1, bbox2)`:
`any((_parallel(bbox1, bbox2), _parallel(bbox2, bbox1)))`. -/
noncomputable def parallel (bbox1 bbox2 : BoundingBox) : Prop :=
  par_one_way bbox1 bbox2 ∨ par_one_way bbox2 bbox1

/-- C5: for boxes with finite orientations, the passthrough relation
`parallel` holds iff the perpendicular distance from `bbox2`'s midpoint to
`bbox1`'s orientation line is at most half of `bbox2`'s average height, OR
the perpendicular distance from `bbox1`'s midpoint to `bbox2`'s orientation
line is at most half of `bbox1`'s average height; and since the relation is
the disjunction of the two directions it is symmetric in its arguments
(the relation-matrix entries `[i][j]` and `[j][i]` always agree; the source
never materialises a `PassThroughs` matrix, `parallel` is the pairwise
relation the spec's matrix is built from). -/
theorem parallel_iff_distances_and_symmetric (b1 b2 : BoundingBox) (m1 m2 : ℚ)
    (h1 : b1.approx_orientation = some m1) (h2 : b2.approx_orientation = some m2) :
    (parallel b1 b2 ↔
      (b2.midpoint.distance_to_line (Line.fromPointSlope b1.midpoint m1)
          ≤ (b2.average_height : ℝ) / 2 ∨
       b1.midpoint.distance_to_line (Line.fromPointSlope b2.midpoint m2)
          ≤ (b1.average_height : ℝ) / 2)) ∧
    (parallel b1 b2 ↔ parallel b2 b1) := by
  constructor
  · unfold parallel par_one_way bboxes_inline
    rw [h1, h2]
    simp only [Option.elim_some]
    rw [WithTop.coe_le_coe, WithTop.coe_le_coe]
  · exact or_comm

/-- A tall box (height 100) with horizontal orientation, midpoint (5, 0). -/
def boxA : BoundingBox := ⟨⟨0, 50⟩, ⟨10, 50⟩, ⟨10, -50⟩, ⟨0, -50⟩⟩

/-- A short box (height 2) with horizontal orientation, midpoint (5, 10). -/
def boxB : BoundingBox := ⟨⟨0, 11⟩, ⟨10, 11⟩, ⟨10, 9⟩, ⟨0, 9⟩⟩

theorem distance_to_horizontal_line (p : Point) (c : ℚ) :
    p.distance_to_line (Line.mk 0 c) = |(c : ℝ) - (p.y : ℝ)| := by
  unfold Point.distance_to_line
  simp only [Line.standard_form_coeffs]
  push_cast
  rw [show ((0 : ℝ)) ^ 2 + (-1 : ℝ) ^ 2 = 1 by norm_num, Real.sqrt_one, div_one]
  ring_nf

theorem boxA_orientation : boxA.approx_orientation = some 0 := by
  norm_num [boxA, BoundingBox.approx_orientation, Point.slope_wrt, slope_mean]

theorem boxB_orientation : boxB.approx_orientation = some 0 := by
  norm_num [boxB, BoundingBox.approx_orientation, Point.slope_wrt, slope_mean]

theorem boxA_midpoint : boxA.midpoint = ⟨5, 0⟩ := by
  simp only [boxA, BoundingBox.midpoint, Point.divQ]
  norm_num

theorem boxB_midpoint : boxB.midpoint = ⟨5, 10⟩ := by
  simp only [boxB, BoundingBox.midpoint, Point.divQ]
  norm_num

theorem boxA_height : boxA.average_height = 100 := by
  simp only [boxA, BoundingBox.average_height]
  norm_num

theorem boxB_height : boxB.average_height = 2 := by
  simp only [boxB, BoundingBox.average_height]
  norm_num

theorem bboxes_inline_AB_eval :
    bboxes_inline boxA boxB = ((10 : ℝ) ≤ (1 : ℝ), ((10 : ℝ) : WithTop ℝ)) := by
  unfold bboxes_inline
  rw [boxA_orientation, Option.elim_some]
  have hl : Line.fromPointSlope boxA.midpoint 0 = Line.mk 0 0 := by
    rw [boxA_midpoint]
    simp only [Line.fromPointSlope]
    norm_num
  rw [hl, boxB_midpoint, boxB_height]
  dsimp only
  rw [distance_to_horizontal_line]
  norm_num

theorem bboxes_inline_BA_eval :
    bboxes_inline boxB boxA = ((10 : ℝ) ≤ (50 : ℝ), ((10 : ℝ) : WithTop ℝ)) := by
  unfold bboxes_inline
  rw [boxB_orientation, Option.elim_some]
  have hl : Line.fromPointSlope boxB.midpoint 0 = Line.mk 0 10 := by
    rw [boxB_midpoint]
    simp only [Line.fromPointSlope]
    norm_num
  rw [hl, boxA_midpoint, boxA_height]
  dsimp only
  rw [distance_to_horizontal_line]
  norm_num

/-- Witness for C5 at the concrete boxes `boxA` and `boxB` (both with
orientation slope 0). -/
theorem parallel_iff_distances_and_symmetric_witness :
    ((parallel boxA boxB ↔
      (boxB.midpoint.distance_to_line (Line.fromPointSlope boxA.midpoint 0)
          ≤ (boxB.average_height : ℝ) / 2 ∨
       boxA.midpoint.distance_to_line (Line.fromPointSlope boxB.midpoint 0)
          ≤ (boxA.average_height : ℝ) / 2)) ∧
    (parallel boxA boxB ↔ parallel boxB boxA)) :=
  parallel_iff_distances_and_symmetric boxA boxB 0 0 boxA_orientation boxB_orientation

/-- Observable Python runtime failures that the sources under verification
actually contain. -/
inductive PyErr where
  /-- `TypeError`: `to_bbox_object` calls `BoundingBox(p1=..., p2=..., p3=...,
  p4=..., idx=bbox[4])` but `BoundingBox.__init__` has no `idx` parameter. -/
  | unexpectedKeywordIdx
  /-- `AttributeError`: `get_point_of_intersections` passes the raw `(x, y)`
  tuple returned by `Line.point_of_intersection` to `is_point_in_polygon`,
  whose first statement reads `point.co_ordinates` — a tuple has no such
  attribute. -/
  | tupleHasNoCoOrdinates
  /-- The `poi is not None` branch of `is_inline` calls
  `get_vector_between_two_points` (the `vector` module is not part of the
  repository sources) and `Line.reflect_point` (no such method exists in
  `geometry.Line`), so reaching that branch cannot succeed. -/
  | vectorHelpersMissing
  deriving DecidableEq

/-- A coordinate pair, `Coords = Tuple[Number, Number]`. -/
abbrev Coords := ℚ × ℚ

/-- A 5-tuple input box: four corners plus an optional index,
`Vertices = Tuple[Coords, Coords, Coords, Coords, Optional[int]]`. -/
abbrev Vertices := Coords × Coords × Coords × Coords × Option ℤ

/-- Embeds `to_bbox_object(bbox)` (main.py): the source invokes
`BoundingBox(p1=bbox[0], p2=bbox[1], p3=bbox[2], p4=bbox[3], idx=bbox[4])`,
but `BoundingBox.__init__(self, p1, p2, p3, p4)` accepts no `idx` keyword, so
the call raises `TypeError` for every input before any field is assigned. -/
def to_bbox_object (_bbox : Vertices) : Except PyErr BoundingBox :=
  .error .unexpectedKeywordIdx

/-- The optional-intersection matrix,
`PointOfIntersections = List[List[Union[Point, None]]]`. -/
abbrev POIMatrix := List (List (Option (ℚ × ℚ)))

/-- Python `pois[idx1][idx2]` on the n×n matrix built by
`get_point_of_intersections` (total lookup; the source always indexes within
range). -/
def poiAt (pois : POIMatrix) (i j : ℕ) : Option (ℚ × ℚ) :=
  (pois.getD i []).getD j none

/-- Embeds `get_point_of_intersections(bboxes, endpoints)` (main.py). The
source initialises an n×n all-`None` matrix and then, for `idx1 < idx2`,
computes `poi = line1.point_of_intersection(line2)` — a raw `(x, y)` tuple —
and calls `is_point_in_polygon(poi, endpoints)`, whose first statement
`x, y = point.co_ordinates` raises `AttributeError` on a tuple. The first
visited pair with `idx1 != idx2` therefore raises; such a pair exists exactly
when `n >= 2`. With `n <= 1` no off-diagonal pair is visited and the untouched
initial matrix is returned. -/
def get_point_of_intersections (bboxes : List BoundingBox) (_endpoints : List Point) :
    Except PyErr POIMatrix :=
  if 2 ≤ bboxes.length then .error .tupleHasNoCoOrdinates
  else .ok (List.replicate bboxes.length (List.replicate bboxes.length none))

/-- One entry of the matrix built by `is_inline(bboxes, pois)` (main.py), for
a fixed off-diagonal pair `(bbox1, bbox2)`: when `pois[idx1][idx2] is None`
the entry is `d if is_inline else inf` from `bboxes_inline(bbox1, bbox2)`;
when a point of intersection is present the source calls the missing vector
and reflection helpers, so the branch fails. -/
noncomputable def inlineEntry (bbox1 bbox2 : BoundingBox) (poi : Option (ℚ × ℚ)) :
    Except PyErr (WithTop ℝ) :=
  match poi with
  | none =>
      let r := bboxes_inline bbox1 bbox2
      .ok (if r.1 then r.2 else ⊤)
  | some _ => .error .vectorHelpersMissing

/-- Embeds the matrix version of `is_inline(bboxes, pois)` (main.py, line
178): an n×n matrix seeded with `inf` (`⊤`), diagonal skipped (left at `⊤`),
off-diagonal entries from `inlineEntry`. The two Python index loops
`for idx1 in range(n): bbox1 = bboxes[idx1]` are embedded as loops over
`bboxes.enum`. -/
noncomputable def is_inline (bboxes : List BoundingBox) (pois : POIMatrix) :
    Except PyErr (List (List (WithTop ℝ))) :=
  bboxes.enum.mapM fun p =>
    bboxes.enum.mapM fun q =>
      if p.1 = q.1 then .ok ⊤
      else inlineEntry p.2 q.2 (poiAt pois p.1 q.1)

/-- Embeds `process(vertices, words, endpoints)` (main.py): builds the box
objects, the intersection matrix and the inline matrix, and returns `None` —
the grouping of boxes into lines (`group_in_lines`) and the word join are
commented out in the source, so no lines are ever produced. -/
noncomputable def process (vertices : List Vertices) (_words : Option (List String))
    (endpoints : List Coords) : Except PyErr Unit := do
  let bboxes ← vertices.mapM to_bbox_object
  let eps := endpoints.map fun c => Point.mk c.1 c.2
  let pois ← get_point_of_intersections bboxes eps
  let _inlines ← is_inline bboxes pois
  pure ()

/-- The page boundary used by the source's own `__main__` driver. -/
def boundary : List Point := [⟨0, 0⟩, ⟨670, 0⟩, ⟨670, 1000⟩, ⟨0, 1000⟩]

/-- C1 (evaluation at the failing input): on a single well-formed clockwise
box, `process` fails with the `TypeError` raised inside `to_bbox_object`
(`BoundingBox.__init__` accepts no `idx` argument) — not with a validation
error — and no lines are produced (the grouping step is commented out, so
even a run that got past the constructor would return `None`, never a
partition of the indices). -/
theorem process_typeError_on_first_box :
    process [((0, 10), (10, 10), (10, 0), (0, 0), some 0)] none
        [(0, 0), (670, 0), (670, 1000), (0, 1000)]
      = .error .unexpectedKeywordIdx := rfl

/-- C2 (evaluation at the failing input): a box whose corners are supplied in
counter-clockwise order (`p1` is not left of `p2`) is not rejected anywhere:
`BoundingBox.__init__` performs no validation and happily computes the derived
attributes from the counter-clockwise corners (midpoint (5, 5) and the
vertical-edge slope sentinel below), and the only error in the construction
path is the unrelated `TypeError` about the `idx` keyword, raised for every
box, clockwise or not, and naming neither a box index nor the clockwise
convention. -/
theorem ccw_box_accepted_without_validation :
    (BoundingBox.mk ⟨0, 10⟩ ⟨0, 0⟩ ⟨10, 0⟩ ⟨10, 10⟩).midpoint = ⟨5, 5⟩ ∧
    (BoundingBox.mk ⟨0, 10⟩ ⟨0, 0⟩ ⟨10, 0⟩ ⟨10, 10⟩).approx_orientation = none ∧
    to_bbox_object ((0, 10), (0, 0), (10, 0), (10, 10), some 0)
      = .error .unexpectedKeywordIdx := by
  refine ⟨?_, ?_, rfl⟩
  · simp only [BoundingBox.midpoint, Point.divQ]
    norm_num
  · simp only [BoundingBox.approx_orientation, Point.slope_wrt, slope_mean]
    norm_num

/-- C4 (evaluation at the failing input): with two boxes present,
`get_point_of_intersections` visits the pair (0, 1), hands the raw coordinate
tuple returned by `Line.point_of_intersection` to `is_point_in_polygon`, and
dies with `AttributeError` — no intersection matrix is ever produced, so the
claimed present-iff-inside-polygon/symmetry properties never get to hold. -/
theorem get_point_of_intersections_attributeError :
    get_point_of_intersections [boxA, boxB] boundary = .error .tupleHasNoCoOrdinates := rfl

theorem except_bind_ok {α β : Type} {e : Except PyErr α} {f : α → Except PyErr β} {b : β} :
    (e >>= f) = .ok b ↔ ∃ a, e = .ok a ∧ f a = .ok b := by
  cases e with
  | error err => simp [Bind.bind, Except.bind]
  | ok a => simp [Bind.bind, Except.bind]

theorem except_mapM_ok_get {α β : Type} {f : α → Except PyErr β} :
    ∀ {xs : List α} {ys : List β}, xs.mapM f = .ok ys →
      ys.length = xs.length ∧
      ∀ k y, ys.get? k = some y → ∃ x, xs.get? k = some x ∧ f x = .ok y := by
  intro xs
  induction xs with
  | nil =>
      intro ys h
      rw [List.mapM_nil] at h
      simp only [Pure.pure, Except.pure, Except.ok.injEq] at h
      subst h
      exact ⟨rfl, fun k y hk => by simp at hk⟩
  | cons a as ih =>
      intro ys h
      rw [List.mapM_cons, except_bind_ok] at h
      obtain ⟨b, hb, h⟩ := h
      rw [except_bind_ok] at h
      obtain ⟨bs, hbs, h⟩ := h
      simp only [Pure.pure, Except.pure, Except.ok.injEq] at h
      subst h
      obtain ⟨hlen, hget⟩ := ih hbs
      refine ⟨by simp [hlen], ?_⟩
      intro k y hk
      cases k with
      | zero =>
          simp only [List.get?_cons_zero, Option.some.injEq] at hk
          exact ⟨a, rfl, hk ▸ hb⟩
      | succ k =>
          simp only [List.get?_cons_succ] at hk
          obtain ⟨x, hx1, hx2⟩ := hget k y hk
          exact ⟨x, by simpa using hx1, hx2⟩

theorem except_mapM_eq_map {α β : Type} {f : α → Except PyErr β} {g : α → β} :
    ∀ {xs : List α}, (∀ x ∈ xs, f x = .ok (g x)) → xs.mapM f = .ok (xs.map g) := by
  intro xs
  induction xs with
  | nil => intro _; rfl
  | cons a as ih =>
      intro h
      rw [List.mapM_cons, h a (List.mem_cons_self a as),
        ih (fun x hx => h x (List.mem_cons_of_mem a hx))]
      rfl

theorem replicate_get?_self {α : Type} (n k : ℕ) (a : α) (hk : k < n) :
    (List.replicate n a).get? k = some a := by
  rw [List.get?_eq_getElem?, List.getElem?_replicate]
  simp [hk]

/-- C10: the relationship matrices never relate a box to itself. Whenever
`get_point_of_intersections` returns a matrix (rather than raising), every
diagonal entry `[i][i]` is `None` (the `idx1 == idx2` pair is skipped by the
loop and the initial value kept), and whenever the matrix version of
`is_inline` returns, every diagonal entry `[i][i]` is still the `inf` seed
(`⊤`): no box can be its own same-line partner. -/
theorem matrices_never_relate_box_to_itself (bboxes : List BoundingBox)
    (endpoints : List Point) (pois : POIMatrix)
    (M1 : POIMatrix) (h1 : get_point_of_intersections bboxes endpoints = .ok M1)
    (M2 : List (List (WithTop ℝ))) (h2 : is_inline bboxes pois = .ok M2) :
    (∀ i row, M1.get? i = some row → row.get? i = some none) ∧
    (∀ i row, M2.get? i = some row → row.get? i = some ⊤) := by
  constructor
  · intro i row hrow
    unfold get_point_of_intersections at h1
    by_cases hn : 2 ≤ bboxes.length
    · rw [if_pos hn] at h1; cases h1
    · rw [if_neg hn] at h1
      have hM1 : M1 = List.replicate bboxes.length (List.replicate bboxes.length none) := by
        cases h1; rfl
      subst hM1
      have hi : i < bboxes.length := by
        by_contra hge
        rw [List.get?_eq_getElem?, List.getElem?_replicate, if_neg (by simpa using hge)] at hrow
        cases hrow
      rw [replicate_get?_self _ _ _ hi] at hrow
      have hrow' : row = List.replicate bboxes.length (none : Option (ℚ × ℚ)) := by
        cases hrow; rfl
      subst hrow'
      exact replicate_get?_self _ _ _ hi
  · intro i row hrow
    unfold is_inline at h2
    obtain ⟨hlen, hget⟩ := except_mapM_ok_get h2
    obtain ⟨p, hp, hpok⟩ := hget i row hrow
    obtain ⟨hlen2, hget2⟩ := except_mapM_ok_get hpok
    have hibound : i < bboxes.length := by
      have := hrow
      rw [List.get?_eq_getElem?] at this
      have hlt : i < M2.length := by
        by_contra hge
        rw [List.getElem?_eq_none (by simpa using hge)] at this
        cases this
      rw [hlen, List.enum_length] at hlt
      exact hlt
    have henum : bboxes.enum.get? i = some p := hp
    -- the inner loop also runs over `bboxes.enum`; at position i it sees p itself
    cases hri : row.get? i with
    | none =>
        exfalso
        have hlt : i < row.length := by rw [hlen2, List.enum_length]; exact hibound
        rw [List.get?_eq_getElem?, List.getElem?_eq_getElem hlt] at hri
        cases hri
    | some v =>
        obtain ⟨q, hq, hqok⟩ := hget2 i v hri
        rw [henum] at hq
        injection hq with hq'
        subst hq'
        rw [if_pos rfl] at hqok
        injection hqok with hv
        rw [← hv]

/-- Witness for C10: one box, the empty intersection matrix; both pipeline
functions succeed and their (1×1) result matrices have the required diagonal
values. -/
theorem matrices_never_relate_box_to_itself_witness :
    (∀ i row, [[(none : Option (ℚ × ℚ))]].get? i = some row → row.get? i = some none) ∧
    (∀ i row, [[(⊤ : WithTop ℝ)]].get? i = some row → row.get? i = some ⊤) :=
  matrices_never_relate_box_to_itself [boxA] boundary [[none]] [[none]] rfl [[⊤]] rfl

@[simp] theorem except_ok_bind {α β : Type} (a : α) (f : α → Except PyErr β) :
    (Except.ok a >>= f) = f a := rfl

@[simp] theorem except_pure_eq_ok {α : Type} (a : α) :
    (pure a : Except PyErr α) = .ok a := rfl

/-- An all-`None` 2×2 intersection matrix (what the spec records when every
intersection point falls outside the boundary or the lines are parallel). -/
def poisNone2 : POIMatrix := [[none, none], [none, none]]

theorem inlineEntry_AB : inlineEntry boxA boxB (poiAt poisNone2 0 1) = .ok ⊤ := by
  rw [show poiAt poisNone2 0 1 = none from rfl]
  unfold inlineEntry
  dsimp only
  rw [bboxes_inline_AB_eval]
  dsimp only
  rw [if_neg (by norm_num : ¬ (10 : ℝ) ≤ 1)]

theorem inlineEntry_BA :
    inlineEntry boxB boxA (poiAt poisNone2 1 0) = .ok ((10 : ℝ) : WithTop ℝ) := by
  rw [show poiAt poisNone2 1 0 = none from rfl]
  unfold inlineEntry
  dsimp only
  rw [bboxes_inline_BA_eval]
  dsimp only
  rw [if_pos (by norm_num : (10 : ℝ) ≤ 50)]

/-- Evaluation of the source's inline-matrix construction at the boxes
`boxA`, `boxB` with no recorded intersection points: the matrix is numeric,
entry [0][1] is the no-relation sentinel `inf` (the one-directional test
`d <= boxB.average_height / 2` fails, 10 > 1) while entry [1][0] holds the
distance 10 (10 <= 50). -/
theorem is_inline_AB_eval :
    is_inline [boxA, boxB] poisNone2
      = .ok [[⊤, ⊤], [((10 : ℝ) : WithTop ℝ), ⊤]] := by
  unfold is_inline
  rw [show ([boxA, boxB] : List BoundingBox).enum = [(0, boxA), (1, boxB)] from rfl]
  simp only [List.mapM_cons, List.mapM_nil, except_pure_eq_ok, except_ok_bind]
  norm_num [inlineEntry_AB, inlineEntry_BA]

/-- Modelled from the spec (section 4.4), for comparison with the source's
`is_inline`: the "vertical separation" score of the candidate partner `k` for
the index `i` — infinite (`⊤`) when `k = i` or the recorded intersection
point is absent, otherwise the sum of the absolute y-distances from `i`'s
and `k`'s midpoints to the intersection point. -/
def vertSepScore (bboxes : List BoundingBox) (pois : POIMatrix) (i k : ℕ) : WithTop ℚ :=
  if k = i then ⊤
  else
    match poiAt pois i k, (bboxes.get? i).map BoundingBox.midpoint,
        (bboxes.get? k).map BoundingBox.midpoint with
    | some pt, some mi, some mk => ((|mi.y - pt.2| + |mk.y - pt.2| : ℚ) : WithTop ℚ)
    | _, _, _ => ⊤

/-- Modelled from the spec (section 4.4): the argmin over `k` of the vertical
separation score, scanning in ascending order so ties break to the lowest
index; `none` when the minimum is not finite. -/
def bestPartner (bboxes : List BoundingBox) (pois : POIMatrix) (i : ℕ) : Option ℕ :=
  let step := fun (best : Option (ℕ × WithTop ℚ)) (q : ℕ × WithTop ℚ) =>
    match best with
    | none => some q
    | some b => if q.2 < b.2 then some q else some b
  match ((List.range bboxes.length).map fun k => (k, vertSepScore bboxes pois i k)).foldl
      step none with
  | some kv => if kv.2 < ⊤ then some kv.1 else none
  | none => none

/-- Modelled from the spec (section 4.4), the claimed `InLines` construction:
a copy of the given `PassThroughs` boolean matrix in which, for each row `i`
whose minimal vertical-separation score is finite, the entry at the argmin
column is set to true. -/
def inLines_spec (bboxes : List BoundingBox) (pois : POIMatrix)
    (passThroughs : List (List Bool)) : List (List Bool) :=
  (List.range bboxes.length).map fun i =>
    (List.range bboxes.length).map fun k =>
      (passThroughs.getD i []).getD k false || decide (bestPartner bboxes pois i = some k)

/-- The claim C3 as a statement about the source: the matrix computed by the
source's `is_inline` records the same-line relation (a finite entry) at
`[i][j]` exactly where the spec's `InLines` construction has a true entry. -/
def adjacencyMatches (bboxes : List BoundingBox) (pois : POIMatrix)
    (passThroughs : List (List Bool)) : Prop :=
  ∀ M, is_inline bboxes pois = .ok M →
    ∀ i j, (((M.getD i []).getD j ⊤ : WithTop ℝ) ≠ ⊤ ↔
      ((inLines_spec bboxes pois passThroughs).getD i []).getD j false = true)

/-- The passthrough matrix of the pair `boxA`, `boxB` as the spec constructs
it (the pair relation holds — `parallel boxA boxB` is proved below — and is
recorded symmetrically; the diagonal is never set by the pairwise pass). -/
def passAB : List (List Bool) := [[false, true], [true, false]]

/-- C3 (counterexample): at the concrete boxes `boxA`, `boxB` with every
intersection point absent, the spec's passthrough relation between the two
boxes holds (so the claimed InLines construction, seeded from PassThroughs,
has a true entry at [0][1]), yet the matrix actually built by the source's
`is_inline` holds the no-relation sentinel `inf` at [0][1]: the source's
adjacency construction is not the claimed copy-PassThroughs-plus-argmin
construction. -/
theorem is_inline_contradicts_spec_adjacency :
    parallel boxA boxB ∧ ¬ adjacencyMatches [boxA, boxB] poisNone2 passAB := by
  constructor
  · right
    unfold par_one_way
    rw [bboxes_inline_BA_eval, boxA_height]
    dsimp only
    rw [WithTop.coe_le_coe]
    norm_num
  · intro h
    have h01 := h [[⊤, ⊤], [((10 : ℝ) : WithTop ℝ), ⊤]] is_inline_AB_eval 0 1
    have hleft : ((([[⊤, ⊤], [((10 : ℝ) : WithTop ℝ), ⊤]] : List (List (WithTop ℝ))).getD 0 []).getD 1 ⊤) = ⊤ := rfl
    have hright :
        ((inLines_spec [boxA, boxB] poisNone2 passAB).getD 0 []).getD 1 false = true := by
      unfold inLines_spec bestPartner vertSepScore
      rfl
    rw [hleft, hright] at h01
    exact (h01.mpr rfl) rfl

/-- C3 (amended): what the source's adjacency construction actually computes.
`is_inline` does not copy PassThroughs and selects no argmin partner: it
builds a numeric matrix seeded with `inf`; on inputs whose intersection
matrix is all-absent (the only inputs on which the function can return at
all, since the other branch calls helpers missing from the codebase), the
diagonal stays `inf` and the off-diagonal entry [i][j] is the one-directional
passthrough result of `bboxes_inline`: the perpendicular distance from `j`'s
midpoint to `i`'s orientation line if that distance is at most half of `j`'s
average height, and `inf` otherwise. -/
theorem is_inline_no_poi_characterization (bboxes : List BoundingBox) (pois : POIMatrix)
    (hpois : ∀ i j, i < bboxes.length → j < bboxes.length → poiAt pois i j = none) :
    is_inline bboxes pois = .ok (bboxes.enum.map fun p => bboxes.enum.map fun q =>
      if p.1 = q.1 then ⊤
      else if (bboxes_inline p.2 q.2).1 then (bboxes_inline p.2 q.2).2 else ⊤) := by
  unfold is_inline
  refine except_mapM_eq_map ?_
  intro p hp
  refine except_mapM_eq_map ?_
  intro q hq
  by_cases hpq : p.1 = q.1
  · rw [if_pos hpq, if_pos hpq]
  · rw [if_neg hpq, if_neg hpq]
    have hpl : p.1 < bboxes.length := by
      have h' := List.mem_enum_iff_get?.mp hp
      by_contra hge
      rw [List.get?_eq_none.mpr (by omega)] at h'
      cases h'
    have hql : q.1 < bboxes.length := by
      have h' := List.mem_enum_iff_get?.mp hq
      by_contra hge
      rw [List.get?_eq_none.mpr (by omega)] at h'
      cases h'
    rw [hpois p.1 q.1 hpl hql]
    rfl

/-- Witness for C3's amended theorem at the boxes `boxA`, `boxB` and the
all-absent 2×2 intersection matrix. -/
theorem is_inline_no_poi_characterization_witness :
    is_inline [boxA, boxB] poisNone2
      = .ok (([boxA, boxB] : List BoundingBox).enum.map fun p =>
          ([boxA, boxB] : List BoundingBox).enum.map fun q =>
            if p.1 = q.1 then ⊤
            else if (bboxes_inline p.2 q.2).1 then (bboxes_inline p.2 q.2).2 else ⊤) :=
  is_inline_no_poi_characterization [boxA, boxB] poisNone2 (by
    intro i j _ _
    rcases i with _ | _ | i <;> rcases j with _ | _ | j <;> rfl)

/-- C8 (counterexample for the index clause): the pipeline's only attempt to
attach a position index to a box — `to_bbox_object`, which reads the 5-tuple's
index slot and passes it as `idx=` — fails with `TypeError` for every input,
because `BoundingBox.__init__` accepts no such parameter; no constructed
`BoundingBox` carries an integer index. -/
theorem to_bbox_object_cannot_attach_index :
    to_bbox_object ((0, 10), (10, 10), (10, 0), (0, 0), some 3)
      = .error .unexpectedKeywordIdx := rfl
